import Mathlib

/-!
Verification development for the Meta-Upload-Puppeteer python UI core:
a shallow embedding of `python_ui/utils/node_runner.py`,
`python_ui/utils/video_scanner.py` and the mark-posted handler of
`python_ui/ui/main_window.py`, with theorems settling the specified
properties of the job supervisor, event decoder and queue repository.
-/

/-! ## Python JSON values (results of a structured parse) -/

/-- A parsed JSON value as produced by the python json module:
null, booleans, numbers, strings, arrays, and objects (assoc lists,
with later duplicate keys overriding earlier ones as a python dict does). -/
inductive JVal where
  | null
  | bool (b : Bool)
  | num (q : ℚ)
  | str (s : String)
  | arr (elems : List JVal)
  | obj (fields : List (String × JVal))

/-- Python `dict.get(k)`: the value of the last binding of `k`, if any. -/
def jget (kvs : List (String × JVal)) (k : String) : Option JVal :=
  kvs.foldl (fun acc kv => if kv.1 = k then some kv.2 else acc) none

/-- Python `dict.get(k, dflt)`: lookup with a default for an absent key. -/
def jgetD (kvs : List (String × JVal)) (k : String) (dflt : JVal) : JVal :=
  (jget kvs k).getD dflt

/-- Python truthiness of a JSON value. -/
def pyTruthy : JVal → Bool
  | .null => false
  | .bool b => b
  | .num q => q ≠ 0
  | .str s => s ≠ ""
  | .arr elems => !elems.isEmpty
  | .obj fields => !fields.isEmpty

/-- The python type name of a JSON value, as it appears in an
AttributeError message. -/
def pyTypeName : JVal → String
  | .null => "NoneType"
  | .bool _ => "bool"
  | .num q => if q.den = 1 then "int" else "float"
  | .str _ => "str"
  | .arr _ => "list"
  | .obj _ => "dict"

/-! ## Python string helpers -/

/-- ASCII whitespace as stripped by `str.strip()`. -/
def pySpace (c : Char) : Bool :=
  c = ' ' || c = '\t' || c = '\n' || c = '\r' || c = '\x0b' || c = '\x0c'

/-- Python `str.strip()`: drop leading and trailing whitespace. -/
def pyStrip (s : String) : String :=
  String.mk (((s.data.dropWhile pySpace).reverse.dropWhile pySpace).reverse)

/-- After `ESC [`, consume `[0-9;]*` and then require `m`; returns the
remainder of the input on a match (the regex `\x1b\[[0-9;]*m`). -/
def eatCSIParams : List Char → Option (List Char)
  | [] => none
  | c :: rest =>
    if c.isDigit || c = ';' then eatCSIParams rest
    else if c = 'm' then some rest
    else none

theorem eatCSIParams_length :
    ∀ l rest, eatCSIParams l = some rest → rest.length < l.length := by
  intro l
  induction l with
  | nil => intro rest h; simp [eatCSIParams] at h
  | cons c cs ih =>
    intro rest h
    simp only [eatCSIParams] at h
    split at h
    · exact Nat.lt_trans (ih rest h) (Nat.lt_succ_self _)
    · split at h
      · cases h; exact Nat.lt_succ_self _
      · cases h

/-- Try to match the tail of one ANSI color escape (`[` then params then `m`). -/
def matchCSI : List Char → Option (List Char)
  | '[' :: rest => eatCSIParams rest
  | _ => none

theorem matchCSI_length :
    ∀ l rest, matchCSI l = some rest → rest.length < l.length := by
  intro l rest h
  match l with
  | [] => simp [matchCSI] at h
  | c :: cs =>
    by_cases hc : c = '['
    · subst hc
      simp only [matchCSI] at h
      exact Nat.lt_trans (eatCSIParams_length cs rest h) (Nat.lt_succ_self _)
    · rw [matchCSI.eq_def] at h
      match c, cs, hc with
      | '[', cs, hc => exact absurd rfl hc
      | _, _, _ => simp_all

/-- The substitution `re.sub` of the pattern ESC `\[[0-9;]*m` by the empty string, over the character list: remove
every ANSI color escape sequence, left to right, non-overlapping. -/
def stripAnsiAux (l : List Char) : List Char :=
  match l with
  | [] => []
  | c :: rest =>
    if c = '\x1b' then
      match h : matchCSI rest with
      | some rest1 => stripAnsiAux rest1
      | none => c :: stripAnsiAux rest
    else c :: stripAnsiAux rest
termination_by l.length
decreasing_by
  · exact Nat.lt_trans (matchCSI_length rest rest1 h) (Nat.lt_succ_self _)
  · exact Nat.lt_succ_self _
  · exact Nat.lt_succ_self _

/-- Strip ANSI color codes from a string. -/
def stripAnsi (s : String) : String :=
  String.mk (stripAnsiAux s.data)

namespace NodeRunner

/-! ## Events emitted to subscribers (the Qt signal payloads) -/

/-- An event delivered to UI subscribers.  The fields of `log`,
`progress` and `videoStatus` carry json values because the source
forwards `data.get(...)` results unmodified; `completed` carries a
python bool and string built by the supervisor itself. -/
inductive UiEvent where
  | log (level message timestamp : JVal)
  | progress (value step : JVal)
  | videoStatus (video status : JVal)
  | completed (success : Bool) (message : String)

/-- Is this event a `command_completed` emission? -/
def UiEvent.isCompleted : UiEvent → Bool
  | .completed _ _ => true
  | _ => false

/-- Embeds `NodeRunner._handle_json_message`: dispatch a parsed JSON value on
its `type` field.  A non-object value has no `.get` attribute, so the
call raises AttributeError (returned as `.error` with the python
message). -/
def handle_json_message (data : JVal) : Except String (List UiEvent) :=
  match data with
  | .obj kvs =>
    match jget kvs "type" with
    | some (.str t) =>
      if t = "log" then
        .ok [.log (jgetD kvs "level" (.str "info")) (jgetD kvs "message" (.str ""))
              (jgetD kvs "timestamp" (.str ""))]
      else if t = "progress" then
        .ok [.progress (jgetD kvs "value" (.num 0)) (jgetD kvs "step" (.str ""))]
      else if t = "video_status" then
        .ok [.videoStatus (jgetD kvs "video" (.str "")) (jgetD kvs "status" (.str ""))]
      else if t = "success" then
        .ok [.log (.str "success") (jgetD kvs "message" (.str "Success"))
              (jgetD kvs "timestamp" (.str ""))]
      else if t = "error" then
        .ok [.log (.str "error") (jgetD kvs "message" (.str "Error"))
              (jgetD kvs "timestamp" (.str ""))]
      else .ok []
    | _ => .ok []
  | _ => .error ("'" ++ pyTypeName data ++ "' object has no attribute 'get'")

/-- One step of the stdout loop body after decode and strip: try the
structured parse (`parse` is the json.loads oracle: `.ok` with the
parsed value, or `.error` for a JSONDecodeError); on parse success
dispatch through `handle_json_message` (whose exceptions propagate);
on parse failure strip ANSI codes and emit a fallback info log when
anything remains. -/
def decodeLine (parsed : Except Unit JVal) (line_str : String) :
    Except String (List UiEvent) :=
  match parsed with
  | .ok data => handle_json_message data
  | .error _ =>
    let clean_line := stripAnsi line_str
    if clean_line ≠ "" then
      .ok [.log (.str "info") (.str clean_line) (.str "")]
    else
      .ok []

/-! ## Supervisor state and operations -/

/-- The mutable state of a NodeRunner: whether `self.process` is a live
handle (non-None) and the `self.is_running` flag. -/
structure RunnerState where
  processPresent : Bool
  is_running : Bool

/-- Result of one `run_command` call: the returned bool, the events
emitted during the call, whether a worker thread was started (which is
what would spawn the process), and the state as left by the call
itself. -/
structure RunCommandResult where
  ret : Bool
  events : List UiEvent
  threadStarted : Bool
  state : RunnerState

/-- Embeds `NodeRunner.run_command`: reject with a single error log when a job
is already running; otherwise start the background thread and return
true immediately.  The call itself touches neither flag nor handle. -/
def run_command (st : RunnerState) (command : String) (args : List String) :
    RunCommandResult :=
  if st.is_running then
    { ret := false
      events := [.log (.str "error") (.str "Another command is already running") (.str "")]
      threadStarted := false
      state := st }
  else
    { ret := true, events := [], threadStarted := true, state := st }

/-- Calls made on the subprocess handle during `stop`. -/
inductive ProcCall where
  | terminate
  | waitT (secs : Nat)
  | kill

/-- Result of a `stop` call. -/
structure StopResult where
  ret : Bool
  events : List UiEvent
  calls : List ProcCall
  state : RunnerState

/-- Embeds `NodeRunner.stop`: only when both a process handle exists and the
running flag is set does it terminate, wait up to 5 seconds (killing on
timeout, modelled by the `exitsWithinGrace` oracle), clear the flag and
emit one warn log; otherwise it returns false and does nothing. -/
def stop (st : RunnerState) (exitsWithinGrace : Bool) : StopResult :=
  if st.processPresent && st.is_running then
    { ret := true
      events := [.log (.str "warn") (.str "Process stopped by user") (.str "")]
      calls := if exitsWithinGrace then [.terminate, .waitT 5] else [.terminate, .waitT 5, .kill]
      state := { st with is_running := false } }
  else
    { ret := false, events := [], calls := [], state := st }

/-! ## The background routine `_run_process` as a trace of actions -/

/-- Observable behaviour of a successfully spawned worker process:
its stdout lines (already byte-decoded, which never raises under
errors-replace), its exit code, and its stderr text. -/
structure WorkerProc where
  lines : List String
  exitCode : Int
  stderr : String

/-- An atomic observable action of `_run_process`: a write to
`self.is_running`, a write to `self.process` (present or None), or a
signal emission. -/
inductive Action where
  | setRunning (b : Bool)
  | setProcess (present : Bool)
  | emit (e : UiEvent)

/-- The stdout loop: strip each line, skip empties, decode the rest,
accumulating emitted events; an exception from the decoder aborts the
loop carrying the events emitted so far and the python error text. -/
def processLines (parse : String → Except Unit JVal) :
    List String → List UiEvent → Except (List UiEvent × String) (List UiEvent)
  | [], acc => .ok acc
  | l :: ls, acc =>
    let line_str := pyStrip l
    if line_str = "" then processLines parse ls acc
    else
      match decodeLine (parse line_str) line_str with
      | .ok evs => processLines parse ls (acc ++ evs)
      | .error e => .error (acc, e)

/-- Embeds `NodeRunner._run_process` as the linear trace of its actions:
set the running flag, spawn (`spawn` is the Popen outcome: a
`WorkerProc` or the spawn exception text), consume stdout, then report
completion from the exit code (reading stderr on failure); any
exception yields the `Error running command:` completion; the finally
block clears flag and handle. -/
def run_process (parse : String → Except Unit JVal)
    (spawn : Except String WorkerProc) : List Action :=
  [Action.setRunning true] ++
    (match spawn with
      | .error e => [Action.emit (.completed false ("Error running command: " ++ e))]
      | .ok wp =>
        Action.setProcess true ::
          (match processLines parse wp.lines [] with
            | .ok evs =>
              evs.map Action.emit ++
                (if wp.exitCode = 0 then
                  [Action.emit (.completed true "Command completed successfully")]
                else
                  [Action.emit (.completed false ("Command failed: " ++ wp.stderr))])
            | .error pr =>
              pr.1.map Action.emit ++
                [Action.emit (.completed false ("Error running command: " ++ pr.2))])) ++
    [Action.setRunning false, Action.setProcess false]

/-- The completion emissions of a trace, in order. -/
def completionsOf (tr : List Action) : List (Bool × String) :=
  tr.filterMap fun a =>
    match a with
    | .emit (.completed s m) => some (s, m)
    | _ => none

/-- The writes to the running flag in a trace, in order. -/
def setRunningsOf (tr : List Action) : List Bool :=
  tr.filterMap fun a =>
    match a with
    | .setRunning b => some b
    | _ => none

/-- Whether a trace ever sets the running flag to true. -/
def everRuns (tr : List Action) : Bool :=
  tr.any fun a =>
    match a with
    | .setRunning true => true
    | _ => false

end NodeRunner

/-! ## Filesystem model for the queue repository -/

/-- Python `os.path.join` for two components on a posix path convention
(no separator duplicated when the head already ends in one). -/
def joinPath (a b : String) : String :=
  if a = "" then b
  else if a.data.getLast? = some '/' then a ++ b
  else a ++ "/" ++ b

/-- The parts of the filesystem (and the external duration probe) the
scanner reads.  `jsonFile p` is `none` when `p` does not exist, `some
(.error ())` when it exists but opening or JSON-parsing it fails, and
`some (.ok v)` for a readable file parsing to `v`.  `textFile p` is
`none` when absent or unreadable.  `probeDuration` is the Duration
Probe Adapter oracle (FFprobe): `none` when the duration cannot be
determined. -/
structure FileSys where
  listdir : String → List String
  isdir : String → Bool
  pathExists : String → Bool
  jsonFile : String → Option (Except Unit JVal)
  textFile : String → Option String
  probeDuration : String → Option ℚ

namespace VideoScanner

/-- The media extension allow-list of the scanner. -/
def video_extensions : List String :=
  [".mp4", ".mov", ".avi", ".mkv", ".webm", ".flv"]

/-- Python `str.lower()` (ASCII, which covers the extension allow-list). -/
def pyLower (s : String) : String :=
  String.mk (s.data.map Char.toLower)

/-- Python `os.path.splitext(s)[1]` for a plain file name: the extension from
the last dot, empty when there is no dot or when every character before
the last dot is itself a dot (hidden files carry no extension). -/
def splitextExt (s : String) : String :=
  let rest := s.data.dropWhile (fun c => c = '.')
  let revExt := rest.reverse.takeWhile (fun c => c ≠ '.')
  if revExt.length = rest.length then ""
  else String.mk ('.' :: revExt.reverse)

/-- Python `int()` truncation toward zero on a rational. -/
def pyTrunc (x : ℚ) : ℤ :=
  if 0 ≤ x then ⌊x⌋ else ⌈x⌉

/-- Python `//` on rationals (floor division). -/
def pyFloorDiv (a b : ℚ) : ℚ :=
  (⌊a / b⌋ : ℤ)

/-- Python `%` on rationals. -/
def pyMod (a b : ℚ) : ℚ :=
  a - b * (⌊a / b⌋ : ℤ)

/-- Python percent-02d formatting: decimal rendering zero-padded to a minimum width of
two characters. -/
def pad2 (n : ℤ) : String :=
  let s := toString n
  if s.length < 2 then "0" ++ s else s

/-- Embeds `VideoScanner.format_duration`: `mm:ss` from
`int(seconds // 60)` and `int(seconds % 60)`, or the `N/A` sentinel
when the duration is unknown. -/
def format_duration (seconds : Option ℚ) : String :=
  match seconds with
  | none => "N/A"
  | some s => pad2 (pyTrunc (pyFloorDiv s 60)) ++ ":" ++ pad2 (pyTrunc (pyMod s 60))

/-- The REEL / POST / UNKNOWN classification computed in
`scan_folder`: `'REEL' if duration_seconds < 90 else 'POST'` when the
duration is known, `'UNKNOWN'` otherwise. -/
def classifyDuration (duration_seconds : Option ℚ) : String :=
  match duration_seconds with
  | some d => if d < 90 then "REEL" else "POST"
  | none => "UNKNOWN"

/-- The first file of the folder listing whose lowercased extension is
in the allow-list (the `break` of the source loop). -/
def findVideoFile (fs : FileSys) (folder_path : String) : Option String :=
  (fs.listdir folder_path).find? fun file =>
    video_extensions.contains (pyLower (splitextExt file))

/-- The fixed marker subpath `<folder>/Posted/status.json`. -/
def statusJsonPath (folder_path : String) : String :=
  joinPath (joinPath folder_path "Posted") "status.json"

/-- Embeds `VideoScanner.check_posted_status`: POSTED only when the marker
file exists, reads, parses to a dict and its `posted` field is truthy;
every failure (missing file, read or parse error, non-dict value whose
`.get` raises, missing or falsy field) yields UNPOSTED.  The
`video_file` argument is unused, as in the source. -/
def check_posted_status (fs : FileSys) (folder_path video_file : String) : String :=
  match fs.jsonFile (statusJsonPath folder_path) with
  | some (.ok (.obj kvs)) =>
    match jget kvs "posted" with
    | some v => if pyTruthy v then "POSTED" else "UNPOSTED"
    | none => "UNPOSTED"
  | _ => "UNPOSTED"

/-- Embeds `VideoScanner.get_caption`: the stripped text of `caption.txt`,
empty when absent or unreadable. -/
def get_caption (fs : FileSys) (folder_path : String) : String :=
  match fs.textFile (joinPath folder_path "caption.txt") with
  | some t => pyStrip t
  | none => ""

/-- One queue item dictionary as built by `scan_folder`. -/
structure VideoData where
  folder_name : String
  folder_path : String
  video_file : String
  video_path : String
  duration_seconds : Option ℚ
  duration_formatted : String
  video_type : String
  status : String
  caption : String

/-- The body of the `scan_folder` loop for one directory entry:
skip non-directories and folders without a media file, otherwise probe
the duration, classify, format, read posted status and caption.
`classifyDuration`/`format_duration` evaluate to exactly the source's
else-branch constants `'UNKNOWN'`/`'N/A'` on an unknown duration. -/
def scanItem (fs : FileSys) (upload_folder folder_name : String) : Option VideoData :=
  let folder_path := joinPath upload_folder folder_name
  if !fs.isdir folder_path then none
  else
    match findVideoFile fs folder_path with
    | none => none
    | some video_file =>
      let video_path := joinPath folder_path video_file
      let duration_seconds := fs.probeDuration video_path
      some
        { folder_name := folder_name
          folder_path := folder_path
          video_file := video_file
          video_path := video_path
          duration_seconds := duration_seconds
          duration_formatted := format_duration duration_seconds
          video_type := classifyDuration duration_seconds
          status := check_posted_status fs folder_path video_file
          caption := get_caption fs folder_path }

/-- Embeds `VideoScanner.scan_folder`: empty on an empty or missing root,
otherwise the items of the root's listing in listing order. -/
def scan_folder (fs : FileSys) (upload_folder : String) : List VideoData :=
  if upload_folder = "" || !fs.pathExists upload_folder then []
  else (fs.listdir upload_folder).filterMap (scanItem fs upload_folder)

end VideoScanner

namespace MainWindow

/-- The status marker written by the mark-posted handler. -/
def postedMarker (ts : String) : JVal :=
  .obj [("posted", .bool true), ("timestamp", .str ts), ("method", .str "manual")]

/-- Embeds `MainWindow.handle_mark_posted` acting on the filesystem:
`makedirs(<folder>/Posted, exist_ok=True)` then write
`{posted: true, timestamp: <now>, method: 'manual'}` to
`<folder>/Posted/status.json`, overwriting any prior marker. -/
def handle_mark_posted (fs : FileSys) (folder_path ts : String) : FileSys :=
  let posted_dir := joinPath folder_path "Posted"
  let status_path := joinPath posted_dir "status.json"
  { listdir := fun p =>
      if p = folder_path then
        if (fs.listdir folder_path).contains "Posted" then fs.listdir folder_path
        else fs.listdir folder_path ++ ["Posted"]
      else fs.listdir p
    isdir := fun p => if p = posted_dir then true else fs.isdir p
    pathExists := fun p =>
      if p = posted_dir || p = status_path then true else fs.pathExists p
    jsonFile := fun p =>
      if p = status_path then some (.ok (postedMarker ts)) else fs.jsonFile p
    textFile := fs.textFile
    probeDuration := fs.probeDuration }

end MainWindow

/-! ## Helper lemmas about traces -/

namespace NodeRunner

@[simp] theorem completionsOf_nil : completionsOf [] = [] := rfl

@[simp] theorem completionsOf_cons_setRunning (b : Bool) (tr : List Action) :
    completionsOf (Action.setRunning b :: tr) = completionsOf tr := rfl

@[simp] theorem completionsOf_cons_setProcess (b : Bool) (tr : List Action) :
    completionsOf (Action.setProcess b :: tr) = completionsOf tr := rfl

@[simp] theorem completionsOf_cons_completed (s : Bool) (m : String) (tr : List Action) :
    completionsOf (Action.emit (.completed s m) :: tr) = (s, m) :: completionsOf tr := rfl

@[simp] theorem completionsOf_append (t1 t2 : List Action) :
    completionsOf (t1 ++ t2) = completionsOf t1 ++ completionsOf t2 :=
  List.filterMap_append t1 t2 _

theorem completionsOf_map_emit (evs : List UiEvent)
    (h : ∀ e ∈ evs, e.isCompleted = false) :
    completionsOf (evs.map Action.emit) = [] := by
  induction evs with
  | nil => rfl
  | cons e es ih =>
    have he := h e (List.mem_cons_self e es)
    cases e with
    | completed s m => simp [UiEvent.isCompleted] at he
    | log l m t =>
      show completionsOf (Action.emit (.log l m t) :: es.map Action.emit) = []
      exact ih fun x hx => h x (List.mem_cons_of_mem _ hx)
    | progress v st =>
      show completionsOf (Action.emit (.progress v st) :: es.map Action.emit) = []
      exact ih fun x hx => h x (List.mem_cons_of_mem _ hx)
    | videoStatus v st =>
      show completionsOf (Action.emit (.videoStatus v st) :: es.map Action.emit) = []
      exact ih fun x hx => h x (List.mem_cons_of_mem _ hx)

@[simp] theorem setRunningsOf_nil : setRunningsOf [] = [] := rfl

@[simp] theorem setRunningsOf_cons_setRunning (b : Bool) (tr : List Action) :
    setRunningsOf (Action.setRunning b :: tr) = b :: setRunningsOf tr := rfl

@[simp] theorem setRunningsOf_cons_setProcess (b : Bool) (tr : List Action) :
    setRunningsOf (Action.setProcess b :: tr) = setRunningsOf tr := rfl

@[simp] theorem setRunningsOf_cons_emit (e : UiEvent) (tr : List Action) :
    setRunningsOf (Action.emit e :: tr) = setRunningsOf tr := rfl

@[simp] theorem setRunningsOf_append (t1 t2 : List Action) :
    setRunningsOf (t1 ++ t2) = setRunningsOf t1 ++ setRunningsOf t2 :=
  List.filterMap_append t1 t2 _

@[simp] theorem setRunningsOf_map_emit (evs : List UiEvent) :
    setRunningsOf (evs.map Action.emit) = [] := by
  induction evs with
  | nil => rfl
  | cons e es ih => simpa using ih

theorem handle_json_message_no_completion (data : JVal) (evs : List UiEvent)
    (h : handle_json_message data = .ok evs) :
    ∀ e ∈ evs, e.isCompleted = false := by
  cases data with
  | obj kvs =>
    simp only [handle_json_message] at h
    split at h
    · split_ifs at h <;> cases h <;> intro e he <;>
        simp_all [UiEvent.isCompleted]
    · cases h
      intro e he
      simp at he
  | null => exact absurd h (by simp [handle_json_message])
  | bool b => exact absurd h (by simp [handle_json_message])
  | num q => exact absurd h (by simp [handle_json_message])
  | str s => exact absurd h (by simp [handle_json_message])
  | arr l => exact absurd h (by simp [handle_json_message])

theorem decodeLine_no_completion (parsed : Except Unit JVal) (s : String)
    (evs : List UiEvent) (h : decodeLine parsed s = .ok evs) :
    ∀ e ∈ evs, e.isCompleted = false := by
  cases parsed with
  | ok data => exact handle_json_message_no_completion data evs h
  | error u =>
    simp only [decodeLine] at h
    split_ifs at h <;> cases h
    · intro e he; simp at he; subst he; rfl
    · intro e he; simp at he

theorem processLines_no_completion (parse : String → Except Unit JVal) :
    ∀ (ls : List String) (acc evs : List UiEvent),
      (∀ e ∈ acc, e.isCompleted = false) →
      processLines parse ls acc = .ok evs →
      ∀ e ∈ evs, e.isCompleted = false := by
  intro ls
  induction ls with
  | nil =>
    intro acc evs hacc h
    cases h
    exact hacc
  | cons l ls ih =>
    intro acc evs hacc h
    simp only [processLines] at h
    split at h
    · exact ih acc evs hacc h
    · split at h
      · refine ih _ evs ?_ h
        intro e he
        rcases List.mem_append.mp he with h1 | h2
        · exact hacc e h1
        · next evs2 hd => exact decodeLine_no_completion _ _ evs2 hd e h2
      · exact Except.noConfusion h

end NodeRunner

/-! ## Claim theorems: job supervisor and decoder -/

/-- C1: if a job is already running (`is_running = true`), `run_command`
returns false, emits exactly one error-level log event, and starts no
worker thread (hence spawns no second process): at most one job runs at
a time. -/
theorem run_command_while_running_rejects (st : NodeRunner.RunnerState)
    (command : String) (args : List String) (h : st.is_running = true) :
    (NodeRunner.run_command st command args).ret = false ∧
    (NodeRunner.run_command st command args).events =
      [.log (.str "error") (.str "Another command is already running") (.str "")] ∧
    (NodeRunner.run_command st command args).threadStarted = false := by
  simp [NodeRunner.run_command, h]

/-- Witness for C1 at the concrete running state. -/
theorem run_command_while_running_rejects_witness :
    (⟨true, true⟩ : NodeRunner.RunnerState).is_running = true ∧
    ((NodeRunner.run_command ⟨true, true⟩ "post-all" []).ret = false ∧
     (NodeRunner.run_command ⟨true, true⟩ "post-all" []).events =
       [.log (.str "error") (.str "Another command is already running") (.str "")] ∧
     (NodeRunner.run_command ⟨true, true⟩ "post-all" []).threadStarted = false) :=
  ⟨rfl, run_command_while_running_rejects ⟨true, true⟩ "post-all" [] rfl⟩

/-- C2: the scanner classifies a known duration `d` as REEL iff
`d < 90`, as POST iff `90 ≤ d` (duration exactly 90 yields POST), and
as UNKNOWN exactly when the duration probe returned no value. -/
theorem classify_reel_post_unknown :
    (∀ d : ℚ,
      (VideoScanner.classifyDuration (some d) = "REEL" ↔ d < 90) ∧
      (VideoScanner.classifyDuration (some d) = "POST" ↔ 90 ≤ d)) ∧
    (∀ o : Option ℚ, VideoScanner.classifyDuration o = "UNKNOWN" ↔ o = none) := by
  constructor
  · intro d
    by_cases h : d < 90
    · simp only [VideoScanner.classifyDuration, if_pos h]
      constructor
      · simp [h]
      · constructor
        · intro he; exact absurd he (by decide)
        · intro hge; exact absurd h (not_lt.mpr hge)
    · simp only [VideoScanner.classifyDuration, if_neg h]
      constructor
      · constructor
        · intro he; exact absurd he (by decide)
        · intro hlt; exact absurd hlt h
      · simp [not_lt.mp h]
  · intro o
    cases o with
    | none => simp [VideoScanner.classifyDuration]
    | some d =>
      simp only [VideoScanner.classifyDuration]
      constructor
      · intro he
        by_cases h : d < 90
        · rw [if_pos h] at he; exact absurd he (by decide)
        · rw [if_neg h] at he; exact absurd he (by decide)
      · intro hc; exact absurd hc (by simp)

/-- Witness for C2 at concrete durations, including the 90-second
boundary. -/
theorem classify_reel_post_unknown_witness :
    VideoScanner.classifyDuration (some 45) = "REEL" ∧
    VideoScanner.classifyDuration (some 90) = "POST" ∧
    VideoScanner.classifyDuration none = "UNKNOWN" :=
  ⟨(classify_reel_post_unknown.1 45).1.mpr (by norm_num),
   (classify_reel_post_unknown.1 90).2.mpr (by norm_num),
   (classify_reel_post_unknown.2 none).mpr rfl⟩

/-- C3 (code bug): the line `42` is valid JSON but not a JSON object,
so it is not a well-formed structured message; instead of falling back
to a plain-text log, `_handle_json_message` calls `.get` on the parsed
int and raises AttributeError, which aborts the whole read loop: the
run completes with `Error running command: ...` (success=false)
although the worker exits with code 0, and no fallback info log is
emitted. -/
theorem decode_nonobject_line_raises :
    NodeRunner.decodeLine (.ok (.num 42)) "42" =
      .error "'int' object has no attribute 'get'" ∧
    NodeRunner.completionsOf
      (NodeRunner.run_process (fun s => if s = "42" then .ok (.num 42) else .error ())
        (.ok ⟨["42"], 0, ""⟩)) =
      [(false, "Error running command: 'int' object has no attribute 'get'")] := by
  constructor <;> rfl

/-- C4 counterexample: on a spawn failure the routine has already set
the running flag to true (its first action), so "the running flag is
never true at any point of that run" is false. -/
theorem spawn_failure_sets_running_flag :
    NodeRunner.everRuns
      (NodeRunner.run_process (fun _ => .error ())
        (.error "No such file or directory: 'node'")) = true := rfl

/-- C4 amended: when the worker cannot be spawned, exactly one
Completion event is emitted, with success=false and the spawn error in
its message; the running flag is set to true at the start of the
routine and cleared again in its finally block (so it is transiently
true, and false by the end of the run). -/
theorem spawn_failure_completion_and_flag
    (parse : String → Except Unit JVal) (e : String) :
    NodeRunner.completionsOf (NodeRunner.run_process parse (.error e)) =
      [(false, "Error running command: " ++ e)] ∧
    NodeRunner.setRunningsOf (NodeRunner.run_process parse (.error e)) =
      [true, false] := by
  constructor <;> rfl

/-- C5: when the stdout loop finishes without an exception, exit code 0
yields exactly one Completion with success=true and the generic success
message, and a non-zero exit code yields exactly one Completion with
success=false whose message carries the stderr diagnostic text. -/
theorem exit_code_completion (parse : String → Except Unit JVal)
    (wp : NodeRunner.WorkerProc) (evs : List NodeRunner.UiEvent)
    (h : NodeRunner.processLines parse wp.lines [] = .ok evs) :
    (wp.exitCode = 0 →
      NodeRunner.completionsOf (NodeRunner.run_process parse (.ok wp)) =
        [(true, "Command completed successfully")]) ∧
    (wp.exitCode ≠ 0 →
      NodeRunner.completionsOf (NodeRunner.run_process parse (.ok wp)) =
        [(false, "Command failed: " ++ wp.stderr)]) := by
  have hnc := NodeRunner.processLines_no_completion parse wp.lines [] evs
    (by intro e he; simp at he) h
  have hmap := NodeRunner.completionsOf_map_emit evs hnc
  constructor
  · intro h0
    simp [NodeRunner.run_process, h, h0, hmap]
  · intro h0
    simp [NodeRunner.run_process, h, h0, hmap]

/-- Witness for C5: a worker with no output lines exiting 1 with stderr
`network unreachable`, and one exiting 0. -/
theorem exit_code_completion_witness :
    NodeRunner.completionsOf
      (NodeRunner.run_process (fun _ => .error ())
        (.ok ⟨[], 1, "network unreachable"⟩)) =
      [(false, "Command failed: network unreachable")] ∧
    NodeRunner.completionsOf
      (NodeRunner.run_process (fun _ => .error ()) (.ok ⟨[], 0, ""⟩)) =
      [(true, "Command completed successfully")] :=
  ⟨(exit_code_completion (fun _ => .error ()) ⟨[], 1, "network unreachable"⟩ [] rfl).2
      (by decide),
   (exit_code_completion (fun _ => .error ()) ⟨[], 0, ""⟩ [] rfl).1 rfl⟩

/-- C7 counterexample: in the reachable state where the running flag is
already true but the process handle is not yet set (the window between
`is_running = True` and the Popen assignment in `_run_process`), `stop`
returns false, emits nothing and leaves the flag set — contradicting
"stop() called while a job is running returns true ... leaves the
running flag cleared". -/
theorem stop_running_without_process_counterexample :
    (NodeRunner.stop ⟨false, true⟩ true).ret = false ∧
    (NodeRunner.stop ⟨false, true⟩ true).events = [] ∧
    (NodeRunner.stop ⟨false, true⟩ true).state.is_running = true :=
  ⟨rfl, rfl, rfl⟩

/-- C7 amended: when the running flag is set AND a process handle
exists, `stop` returns true, terminates the process, waits with the
5-second grace period (killing on timeout), clears the running flag and
emits exactly one warn log "Process stopped by user"; when the flag is
clear, or no handle exists, it returns false, emits nothing and leaves
the state unchanged. -/
theorem stop_contract (st : NodeRunner.RunnerState) (g : Bool) :
    (st.is_running = true → st.processPresent = true →
      (NodeRunner.stop st g).ret = true ∧
      (NodeRunner.stop st g).events =
        [.log (.str "warn") (.str "Process stopped by user") (.str "")] ∧
      (NodeRunner.stop st g).calls =
        (if g then [.terminate, .waitT 5] else [.terminate, .waitT 5, .kill]) ∧
      (NodeRunner.stop st g).state.is_running = false) ∧
    ((st.is_running = false ∨ st.processPresent = false) →
      (NodeRunner.stop st g).ret = false ∧
      (NodeRunner.stop st g).events = [] ∧
      (NodeRunner.stop st g).state = st) := by
  obtain ⟨p, r⟩ := st
  cases p <;> cases r <;>
    simp [NodeRunner.stop]

/-- Witness for C7 at a running state with a process handle, on the
kill path. -/
theorem stop_contract_witness :
    (NodeRunner.stop ⟨true, true⟩ false).ret = true ∧
    (NodeRunner.stop ⟨true, true⟩ false).events =
      [.log (.str "warn") (.str "Process stopped by user") (.str "")] ∧
    (NodeRunner.stop ⟨true, true⟩ false).calls =
      [.terminate, .waitT 5, .kill] ∧
    (NodeRunner.stop ⟨true, true⟩ false).state.is_running = false := by
  have h := (stop_contract ⟨true, true⟩ false).1 rfl rfl
  exact ⟨h.1, h.2.1, by simpa using h.2.2.1, h.2.2.2⟩

/-- C9 counterexample: `stop` — not `_run_process`'s finally block —
also resets the running flag to false, when called in the running
state with a live handle. -/
theorem stop_resets_flag_counterexample :
    (NodeRunner.stop ⟨true, true⟩ true).state.is_running ≠
      (⟨true, true⟩ : NodeRunner.RunnerState).is_running := by
  intro h
  exact Bool.noConfusion h

/-- C9 amended: `run_command` itself never modifies the runner state
(flag or handle); the only writes to the running flag in a run of
`_run_process` are true at its start and false in its finally block;
and additionally `stop` clears the flag (exactly when it is set and a
handle exists). -/
theorem run_command_frame_and_flag_discipline :
    (∀ (st : NodeRunner.RunnerState) (c : String) (a : List String),
      (NodeRunner.run_command st c a).state = st) ∧
    (∀ (parse : String → Except Unit JVal) (spawn : Except String NodeRunner.WorkerProc),
      NodeRunner.setRunningsOf (NodeRunner.run_process parse spawn) = [true, false]) ∧
    (∀ (st : NodeRunner.RunnerState) (g : Bool),
      (NodeRunner.stop st g).state.is_running =
        (st.is_running && !st.processPresent)) := by
  refine ⟨?_, ?_, ?_⟩
  · intro st c a
    unfold NodeRunner.run_command
    split <;> rfl
  · intro parse spawn
    cases spawn with
    | error e => rfl
    | ok wp =>
      unfold NodeRunner.run_process
      cases hp : NodeRunner.processLines parse wp.lines [] with
      | ok evs =>
        by_cases h0 : wp.exitCode = 0 <;> simp [hp, h0]
      | error pr => simp [hp]
  · intro st g
    obtain ⟨p, r⟩ := st
    cases p <;> cases r <;> simp [NodeRunner.stop]

/-! ## Helper lemmas about duration formatting -/

theorem format_duration_eq_floor (d : ℚ) (hd : 0 ≤ d) :
    VideoScanner.format_duration (some d) =
      VideoScanner.pad2 ⌊d / 60⌋ ++ ":" ++ VideoScanner.pad2 (⌊d⌋ % 60) := by
  have h60 : (0:ℚ) < 60 := by norm_num
  have hq : (0:ℤ) ≤ ⌊d / 60⌋ := Int.floor_nonneg.mpr (div_nonneg hd h60.le)
  have hmin : VideoScanner.pyTrunc (VideoScanner.pyFloorDiv d 60) = ⌊d / 60⌋ := by
    unfold VideoScanner.pyTrunc VideoScanner.pyFloorDiv
    rw [if_pos (by exact_mod_cast hq : (0:ℚ) ≤ ((⌊d / 60⌋ : ℤ) : ℚ))]
    exact Int.floor_intCast _
  have hcast : (60:ℚ) * ((⌊d / 60⌋ : ℤ) : ℚ) = ((60 * ⌊d / 60⌋ : ℤ) : ℚ) := by
    push_cast; ring
  have hmod0 : (0:ℚ) ≤ d - 60 * ((⌊d / 60⌋ : ℤ) : ℚ) := by
    have h := Int.sub_floor_div_mul_nonneg d h60
    linarith
  have hmodlt : d - 60 * ((⌊d / 60⌋ : ℤ) : ℚ) < 60 := by
    have h := Int.sub_floor_div_mul_lt d h60
    linarith
  have hfl : ⌊d - ((60 * ⌊d / 60⌋ : ℤ) : ℚ)⌋ = ⌊d⌋ - 60 * ⌊d / 60⌋ :=
    Int.floor_sub_int d _
  have hlow : 0 ≤ ⌊d⌋ - 60 * ⌊d / 60⌋ := by
    rw [← hfl]
    exact Int.floor_nonneg.mpr (by rw [← hcast]; exact hmod0)
  have hhigh : ⌊d⌋ - 60 * ⌊d / 60⌋ < 60 := by
    rw [← hfl]
    refine Int.floor_lt.mpr ?_
    rw [← hcast]
    exact_mod_cast hmodlt
  have hsec : VideoScanner.pyTrunc (VideoScanner.pyMod d 60) = ⌊d⌋ % 60 := by
    unfold VideoScanner.pyTrunc VideoScanner.pyMod
    rw [if_pos hmod0, hcast, hfl]
    have hsplit : ⌊d⌋ = (⌊d⌋ - 60 * ⌊d / 60⌋) + 60 * ⌊d / 60⌋ := by ring
    calc ⌊d⌋ - 60 * ⌊d / 60⌋
        = (⌊d⌋ - 60 * ⌊d / 60⌋) % 60 := (Int.emod_eq_of_lt hlow hhigh).symm
      _ = ((⌊d⌋ - 60 * ⌊d / 60⌋) + 60 * ⌊d / 60⌋) % 60 :=
          (Int.add_mul_emod_self_left _ 60 _).symm
      _ = ⌊d⌋ % 60 := by rw [← hsplit]
  show VideoScanner.pad2 (VideoScanner.pyTrunc (VideoScanner.pyFloorDiv d 60)) ++ ":" ++
      VideoScanner.pad2 (VideoScanner.pyTrunc (VideoScanner.pyMod d 60)) = _
  rw [hmin, hsec]

theorem pad2_two_digit_nat :
    ∀ k : ℕ, k < 100 →
      (VideoScanner.pad2 (k:ℤ)).length = 2 ∧
      (VideoScanner.pad2 (k:ℤ)).data.all Char.isDigit = true := by decide

theorem pad2_two_digit (n : ℤ) (hn0 : 0 ≤ n) (hn1 : n < 100) :
    (VideoScanner.pad2 n).length = 2 ∧
    (VideoScanner.pad2 n).data.all Char.isDigit = true := by
  obtain ⟨k, rfl⟩ := Int.eq_ofNat_of_zero_le hn0
  exact pad2_two_digit_nat k (by exact_mod_cast hn1)

/-! ## Claim theorems: duration display -/

/-- C10: for every non-negative duration, the formatter displays
`floor(d/60)` minutes and `floor(d) mod 60` seconds (fractional seconds
truncated downward, never rounded up). -/
theorem format_duration_truncates (d : ℚ) (hd : 0 ≤ d) :
    VideoScanner.format_duration (some d) =
      VideoScanner.pad2 ⌊d / 60⌋ ++ ":" ++ VideoScanner.pad2 (⌊d⌋ % 60) :=
  format_duration_eq_floor d hd

/-- Witness for C10: a duration of 89.9 seconds displays as `01:29`
(truncated, not rounded to `01:30`) while still classifying as REEL. -/
theorem format_duration_truncates_witness :
    (0:ℚ) ≤ 899 / 10 ∧
    VideoScanner.format_duration (some (899 / 10)) = "01:29" ∧
    VideoScanner.classifyDuration (some (899 / 10)) = "REEL" := by
  have hmin : ⌊(899:ℚ) / 10 / 60⌋ = 1 :=
    Int.floor_eq_iff.mpr ⟨by norm_num, by norm_num⟩
  have hflo : ⌊(899:ℚ) / 10⌋ = 89 :=
    Int.floor_eq_iff.mpr ⟨by norm_num, by norm_num⟩
  refine ⟨by norm_num, ?_, ?_⟩
  · rw [format_duration_truncates (899 / 10) (by norm_num), hmin, hflo]
    rfl
  · show (if (899:ℚ) / 10 < 90 then "REEL" else "POST") = "REEL"
    rw [if_pos (by norm_num)]

/-- C8 counterexample: a duration of 6000 seconds (100 minutes) renders
as `100:00` — the minutes field has three digits, so the display is not
of the claimed exactly-two-digit `MM:SS` shape. -/
theorem format_duration_three_digit_minutes :
    VideoScanner.format_duration (some 6000) = "100:00" ∧
    ¬ ∃ mm ss : String,
        VideoScanner.format_duration (some 6000) = mm ++ ":" ++ ss ∧
        mm.length = 2 ∧ ss.length = 2 := by
  have hmin : ⌊(6000:ℚ) / 60⌋ = 100 :=
    Int.floor_eq_iff.mpr ⟨by norm_num, by norm_num⟩
  have hflo : ⌊(6000:ℚ)⌋ = 6000 := by
    exact_mod_cast Int.floor_intCast (α := ℚ) 6000
  have heq : VideoScanner.format_duration (some 6000) = "100:00" := by
    rw [format_duration_eq_floor 6000 (by norm_num), hmin, hflo]
    rfl
  refine ⟨heq, ?_⟩
  rintro ⟨mm, ss, habs, hmm, hss⟩
  rw [heq] at habs
  have hlen := congrArg String.length habs
  rw [String.length_append, String.length_append, hmm, hss,
    show ("100:00" : String).length = 6 from rfl,
    show (":" : String).length = 1 from rfl] at hlen
  omega

/-- C8 amended: for known durations under 100 minutes the display is
`MM:SS` with exactly two decimal digits in each field (`%02d` pads to a
minimum of two digits, so minutes of 100 or more render wider); for an
unknown duration the display is the fixed sentinel `N/A`. -/
theorem format_duration_two_digit (d : ℚ) (h0 : 0 ≤ d) (h1 : d < 6000) :
    (∃ mm ss : String,
      VideoScanner.format_duration (some d) = mm ++ ":" ++ ss ∧
      mm.length = 2 ∧ ss.length = 2 ∧
      mm.data.all Char.isDigit = true ∧ ss.data.all Char.isDigit = true) ∧
    VideoScanner.format_duration none = "N/A" := by
  have h60 : (0:ℚ) < 60 := by norm_num
  have hq0 : (0:ℤ) ≤ ⌊d / 60⌋ := Int.floor_nonneg.mpr (div_nonneg h0 h60.le)
  have hq1 : ⌊d / 60⌋ < 100 := by
    refine Int.floor_lt.mpr ?_
    rw [div_lt_iff₀ h60]
    push_cast
    linarith
  have hs0 : (0:ℤ) ≤ ⌊d⌋ % 60 := Int.emod_nonneg _ (by norm_num)
  have hs1 : ⌊d⌋ % 60 < 100 := by
    have := Int.emod_lt_of_pos ⌊d⌋ (show (0:ℤ) < 60 by norm_num)
    omega
  obtain ⟨hmml, hmmd⟩ := pad2_two_digit _ hq0 hq1
  obtain ⟨hssl, hssd⟩ := pad2_two_digit _ hs0 hs1
  exact ⟨⟨VideoScanner.pad2 ⌊d / 60⌋, VideoScanner.pad2 (⌊d⌋ % 60),
    format_duration_eq_floor d h0, hmml, hssl, hmmd, hssd⟩, rfl⟩

/-- Witness for C8 at a 45-second duration. -/
theorem format_duration_two_digit_witness :
    (0:ℚ) ≤ 45 ∧ (45:ℚ) < 6000 ∧
    ((∃ mm ss : String,
      VideoScanner.format_duration (some 45) = mm ++ ":" ++ ss ∧
      mm.length = 2 ∧ ss.length = 2 ∧
      mm.data.all Char.isDigit = true ∧ ss.data.all Char.isDigit = true) ∧
    VideoScanner.format_duration none = "N/A") :=
  ⟨by norm_num, by norm_num,
   format_duration_two_digit 45 (by norm_num) (by norm_num)⟩

/-! ## Helper lemmas about paths and the mark-posted write -/

theorem length_pos_of_ne_empty (s : String) (h : s ≠ "") : 0 < s.length := by
  rcases s with ⟨data⟩
  cases data with
  | nil => exact absurd rfl h
  | cons c cs => simp [String.length]

theorem joinPath_length_lt (a b : String) (hb : b ≠ "") :
    a.length < (joinPath a b).length := by
  unfold joinPath
  split_ifs with h1 h2
  · subst h1
    simpa using length_pos_of_ne_empty b hb
  · rw [String.length_append]
    have := length_pos_of_ne_empty b hb
    omega
  · rw [String.length_append, String.length_append,
      show ("/" : String).length = 1 from rfl]
    omega

theorem check_posted_after_mark (fs : FileSys) (folder_path ts vf : String) :
    VideoScanner.check_posted_status (MainWindow.handle_mark_posted fs folder_path ts)
      folder_path vf = "POSTED" := by
  have hj : (MainWindow.handle_mark_posted fs folder_path ts).jsonFile
      (VideoScanner.statusJsonPath folder_path) =
      some (.ok (MainWindow.postedMarker ts)) := by
    simp [MainWindow.handle_mark_posted, VideoScanner.statusJsonPath]
  unfold VideoScanner.check_posted_status
  rw [hj]
  rfl

theorem listdir_mark_posted_self (fs : FileSys) (fp ts : String) :
    (MainWindow.handle_mark_posted fs fp ts).listdir fp = fs.listdir fp ∨
    (MainWindow.handle_mark_posted fs fp ts).listdir fp = fs.listdir fp ++ ["Posted"] := by
  by_cases h : "Posted" ∈ fs.listdir fp
  · left; simp [MainWindow.handle_mark_posted, h]
  · right; simp [MainWindow.handle_mark_posted, h]

theorem findVideoFile_after_mark (fs : FileSys) (fp ts vf : String)
    (h : VideoScanner.findVideoFile fs fp = some vf) :
    VideoScanner.findVideoFile (MainWindow.handle_mark_posted fs fp ts) fp = some vf := by
  unfold VideoScanner.findVideoFile at h ⊢
  rcases listdir_mark_posted_self fs fp ts with hl | hl <;> rw [hl]
  · exact h
  · rw [List.find?_append, h]; rfl

/-! ## Claim theorem: mark-posted / scan round trip -/

/-- C6: after the mark-posted write (create the `Posted` subdirectory,
write the `{posted: true, timestamp, method: manual}` marker),
scanning the containing root yields the item for that folder with
status POSTED. -/
theorem mark_posted_scan_roundtrip
    (fs : FileSys) (root name ts vf : String)
    (hroot : root ≠ "") (hrex : fs.pathExists root = true)
    (hmem : name ∈ fs.listdir root) (hname : name ≠ "")
    (hdir : fs.isdir (joinPath root name) = true)
    (hvf : VideoScanner.findVideoFile fs (joinPath root name) = some vf) :
    ∃ item ∈ VideoScanner.scan_folder
        (MainWindow.handle_mark_posted fs (joinPath root name) ts) root,
      item.folder_path = joinPath root name ∧ item.status = "POSTED" := by
  have hlen1 : root.length < (joinPath root name).length :=
    joinPath_length_lt root name hname
  have hlen2 : (joinPath root name).length <
      (joinPath (joinPath root name) "Posted").length :=
    joinPath_length_lt _ _ (by decide)
  have hlen3 : (joinPath (joinPath root name) "Posted").length <
      (joinPath (joinPath (joinPath root name) "Posted") "status.json").length :=
    joinPath_length_lt _ _ (by decide)
  have hne_fp : root ≠ joinPath root name := fun h => by
    have := congrArg String.length h; omega
  have hne_pd : root ≠ joinPath (joinPath root name) "Posted" := fun h => by
    have := congrArg String.length h; omega
  have hne_sp : root ≠ joinPath (joinPath (joinPath root name) "Posted") "status.json" :=
    fun h => by have := congrArg String.length h; omega
  have hne_fppd : joinPath root name ≠ joinPath (joinPath root name) "Posted" :=
    fun h => by have := congrArg String.length h; omega
  have hpe1 : (MainWindow.handle_mark_posted fs (joinPath root name) ts).pathExists root
      = true := by
    simp [MainWindow.handle_mark_posted, hne_pd, hne_sp, hrex]
  have hld1 : (MainWindow.handle_mark_posted fs (joinPath root name) ts).listdir root
      = fs.listdir root := by
    simp [MainWindow.handle_mark_posted, hne_fp]
  have hdir1 : (MainWindow.handle_mark_posted fs (joinPath root name) ts).isdir
      (joinPath root name) = true := by
    simp [MainWindow.handle_mark_posted, hne_fppd, hdir]
  have hvf1 : VideoScanner.findVideoFile
      (MainWindow.handle_mark_posted fs (joinPath root name) ts) (joinPath root name)
      = some vf :=
    findVideoFile_after_mark fs (joinPath root name) ts vf hvf
  have hst1 : VideoScanner.check_posted_status
      (MainWindow.handle_mark_posted fs (joinPath root name) ts) (joinPath root name) vf
      = "POSTED" :=
    check_posted_after_mark fs (joinPath root name) ts vf
  have hitem : VideoScanner.scanItem
      (MainWindow.handle_mark_posted fs (joinPath root name) ts) root name = some
      { folder_name := name
        folder_path := joinPath root name
        video_file := vf
        video_path := joinPath (joinPath root name) vf
        duration_seconds :=
          (MainWindow.handle_mark_posted fs (joinPath root name) ts).probeDuration
            (joinPath (joinPath root name) vf)
        duration_formatted := VideoScanner.format_duration
          ((MainWindow.handle_mark_posted fs (joinPath root name) ts).probeDuration
            (joinPath (joinPath root name) vf))
        video_type := VideoScanner.classifyDuration
          ((MainWindow.handle_mark_posted fs (joinPath root name) ts).probeDuration
            (joinPath (joinPath root name) vf))
        status := "POSTED"
        caption := VideoScanner.get_caption
          (MainWindow.handle_mark_posted fs (joinPath root name) ts)
          (joinPath root name) } := by
    simp [VideoScanner.scanItem, hdir1, hvf1, hst1]
  have hsf : VideoScanner.scan_folder
      (MainWindow.handle_mark_posted fs (joinPath root name) ts) root =
      (fs.listdir root).filterMap
        (VideoScanner.scanItem (MainWindow.handle_mark_posted fs (joinPath root name) ts)
          root) := by
    unfold VideoScanner.scan_folder
    rw [hpe1, hld1]
    simp [hroot]
  rw [hsf]
  exact ⟨_, List.mem_filterMap.mpr ⟨name, hmem, hitem⟩, rfl, rfl⟩

/-- A concrete filesystem with one item folder holding one 45-second
video and no marker. -/
def fsDemo : FileSys where
  listdir := fun p =>
    if p = "/u" then ["vid1"] else if p = "/u/vid1" then ["clip.mp4"] else []
  isdir := fun p => p = "/u" || p = "/u/vid1"
  pathExists := fun p => p = "/u" || p = "/u/vid1"
  jsonFile := fun _ => none
  textFile := fun _ => none
  probeDuration := fun _ => some 45

/-- Witness for C6 on the concrete filesystem. -/
theorem mark_posted_scan_roundtrip_witness :
    ∃ item ∈ VideoScanner.scan_folder
        (MainWindow.handle_mark_posted fsDemo (joinPath "/u" "vid1")
          "2024-01-01T00:00:00") "/u",
      item.folder_path = joinPath "/u" "vid1" ∧ item.status = "POSTED" :=
  mark_posted_scan_roundtrip fsDemo "/u" "vid1" "2024-01-01T00:00:00" "clip.mp4"
    (by decide) (by decide) (by decide) (by decide) (by decide) (by decide)
